import Mathlib

/-!
Shallow embedding of the MMN_WebScraper pipeline (`src/MMN_WebScraper.py`).

Modelling conventions:
* Wall-clock time is modelled in integer seconds.  Each call of `time_left()`
  in the source is one reading from the oracle stream `World.timeLeft`,
  consumed via the counter `St.tIdx`.  Python truncates the float reading with
  `int(...)` inside `scrape_with_selenium`; over integer readings the
  truncation is the identity.
* Each `session.get` issued by `get_with_jitter` consumes one entry of the
  oracle stream `World.net` (counter `St.nIdx`); `resp.raise_for_status()` and
  transport failures are folded into the `Except` value the oracle returns.
* BeautifulSoup HTML parsing is an external library; `parse_list_html` is
  modelled by the oracle `World.parseList` returning the first listing row (or
  a structural error), and the anchor list of a detail page by `World.anchors`
  (hrefs in document order).  The row itself carries the data the source
  inspects: the `get_text(strip=True)` of each `td` cell and, for each anchor
  having an href, its visible text and href.
* Azure blob storage is modelled inside `St`: `St.marker` is the content of
  the `latest_seen.txt` blob (`none` = missing object or failed read) and
  `St.blobs` the set of object paths that exist.  Write operations consume the
  oracle stream `World.putOk` (counter `St.pIdx`); a `false` entry models the
  SDK raising, a `true` entry a confirmed write.
* Selenium's rendered DOM: the k-th `WebDriverWait` consumes `World.waitOk k`
  (whether the awaited CSS marker appeared within the bound) and, on success,
  `World.renderedHtml k` is the `driver.page_source`.
* Observable actions are recorded in the event trace `St.trace`, most recent
  event first.  Only the `[WARN]` prints of the two retry loops are modelled
  as `Event.warn` entries; purely informational prints are not traced.
* String primitives: Lean's `String.trim`, `String.toLower`, `Char.isDigit`,
  `Char.isAlphanum` are ASCII; Python's `str.strip`, `str.lower`, `\d`, `\w`
  additionally cover non-ASCII Unicode classes.  All data relevant to the
  claims is ASCII, where the two coincide.  `unquote` is modelled at byte
  level for single-byte (ASCII/Latin-1) sequences; multi-byte UTF-8 decoding
  of consecutive percent escapes is not modelled.
-/

namespace MMN

/-- Configuration constants copied from the source header. -/
def BASE : String := "https://mymarketnews.ams.usda.gov"

def LIST_URL : String :=
  "https://mymarketnews.ams.usda.gov/filerepo/reports?field_slug_id_value=3661&page=0"

def AZURE_BLOB_DIRECTORY : String := "Market News/USDA Weekly Reports/"

def LATEST_SEEN_BLOB : String := AZURE_BLOB_DIRECTORY ++ "latest_seen.txt"

def GLOBAL_DEADLINE_SECONDS : Int := 180

/-- Failure values raised by the pipeline.  `deadlineExceeded` is the
`TimeoutError` raised by `check_deadline`, `runtimeError` the `RuntimeError`s
of the parsing helpers and of the download retry loop, `fetchError` any
`requests` exception (transport failure or `raise_for_status`),
`renderTimeout` Selenium's `TimeoutException`, `storageError` an Azure SDK
exception during a write. -/
inductive Err
  | deadlineExceeded (point : String)
  | fetchError (msg : String)
  | runtimeError (msg : String)
  | renderTimeout
  | storageError
deriving DecidableEq, Repr

/-- Rendering of an exception when interpolated into an f-string. -/
def errMsg : Err → String
  | Err.deadlineExceeded p =>
      "Global deadline exceeded while " ++ (if p = "" then "running" else p) ++ " (>180s)."
  | Err.fetchError m => m
  | Err.runtimeError m => m
  | Err.renderTimeout => "TimeoutException"
  | Err.storageError => "StorageError"

/-- Observable actions of a run, recorded most recent first in `St.trace`. -/
inductive Event
  | netGet (url : String)
  | browserLaunch
  | browserNav (url : String)
  | domWait (bound : Int) (ok : Bool)
  | browserQuit
  | readMarker
  | existsCheck (path : String) (result : Bool)
  | uploadTry (path : String)
  | uploadOk (path : String)
  | markerWrite (value : String)
  | email
  | warn (tag : String)
deriving DecidableEq, Repr

/-- Classification of the three return paths of `main` after a successful
harvest: the early `return` when the marker matches (`noChange`), the
`[SKIP]` path (`skipped`), and the full download/upload path (`uploaded`). -/
inductive Outcome
  | noChange
  | skipped
  | uploaded
deriving DecidableEq, Repr

/-- An anchor of the listing row: visible text (`get_text()`, empty string for
`None`) and href.  Only anchors that have an href are listed, mirroring
`row.find_all("a", href=True)`. -/
structure Link where
  text : String
  href : String
deriving DecidableEq, Repr

/-- The first listing row, as the source inspects it: the stripped text of
each `td` cell in order, and the row's href-carrying anchors in order. -/
structure Row where
  cells : List String
  links : List Link
deriving DecidableEq, Repr

/-- The triple returned by the scrape tier: `(detail_url, pdf_url, filename)`. -/
structure Artifact where
  detailUrl : String
  pdfUrl : String
  filename : String
deriving DecidableEq, Repr

/-- External environment of one run: oracle streams for the clock, the
network, HTML parsing, the rendered browser DOM and storage-write success. -/
structure World where
  timeLeft : Nat → Int
  net : Nat → Except Err String
  parseList : String → Except Err Row
  anchors : String → List String
  renderedHtml : Nat → String
  waitOk : Nat → Bool
  putOk : Nat → Bool

/-- Mutable state threaded through a run: oracle counters, the storage
content, and the event trace (most recent event first). -/
structure St where
  tIdx : Nat := 0
  nIdx : Nat := 0
  sIdx : Nat := 0
  pIdx : Nat := 0
  marker : Option String := none
  blobs : List String := []
  trace : List Event := []
deriving DecidableEq, Repr

instance exceptDecEq {ε α : Type} [DecidableEq ε] [DecidableEq α] :
    DecidableEq (Except ε α)
  | Except.ok a, Except.ok b =>
    if h : a = b then isTrue (by rw [h])
    else isFalse (fun hh => h (Except.ok.inj hh))
  | Except.ok _, Except.error _ => isFalse (fun hh => Except.noConfusion hh)
  | Except.error _, Except.ok _ => isFalse (fun hh => Except.noConfusion hh)
  | Except.error e, Except.error f =>
    if h : e = f then isTrue (by rw [h])
    else isFalse (fun hh => h (Except.error.inj hh))

/-- Sequencing of a stateful computation with Python exception semantics: an
`error` propagates, keeping the state (and hence the trace) accumulated so
far. -/
def bindE {α β : Type} (x : St × Except Err α) (f : α → St → St × Except Err β) :
    St × Except Err β :=
  match x with
  | (s, Except.ok a) => f a s
  | (s, Except.error e) => (s, Except.error e)

/-- Appends an event to the trace. -/
def emit (e : Event) (s : St) : St := { s with trace := e :: s.trace }

/-! ### Python string primitives

Lean's own `String.trim`, `String.split`, … are defined by well-founded
recursion over byte positions; the models below are structurally recursive
over the character list, with the semantics of the Python methods the source
calls (restricted to ASCII, see the header note). -/

/-- ASCII whitespace as stripped by Python's `str.strip()`. -/
def pyIsSpace (c : Char) : Bool :=
  c == ' ' || c == '\t' || c == '\n' || c == '\r' || c == '\x0b' || c == '\x0c'

/-- Python `str.strip()` (ASCII whitespace). -/
def pyStrip (s : String) : String :=
  String.mk (((s.toList.dropWhile pyIsSpace).reverse.dropWhile pyIsSpace).reverse)

/-- Python `str.lower()` (ASCII letters). -/
def pyLower (s : String) : String := String.mk (s.toList.map Char.toLower)

/-- Python `str.endswith(suffix)`. -/
def pyEndsWith (s suffix : String) : Bool :=
  suffix.toList.reverse.isPrefixOf s.toList.reverse

/-- Python `str.split(sep)` for a one-character separator, on character
lists: always at least one group, empty groups between adjacent separators. -/
def splitChar (sep : Char) : List Char → List (List Char)
  | [] => [[]]
  | c :: rest =>
    let r := splitChar sep rest
    if c == sep then [] :: r
    else
      match r with
      | [] => [[c]]
      | g :: gs => (c :: g) :: gs

/-! ### Date extraction (`extract_date_from_row`, lines 145-156)

The regular expression
`\b(\d{4}-\d{2}-\d{2})\b|\b(\d{2}-\d{2}-\d{4})\b` is modelled character by
character: `re.search` scans start positions left to right and at each
position tries the first alternative, then the second. -/

/-- Word character of the regex `\b` boundary (ASCII part of `\w`). -/
def isWordChar (c : Char) : Bool := c.isAlphanum || c == '_'

/-- The `\b` condition on the left of the match, given the preceding
character (`none` at the start of the string). -/
def boundaryBefore : Option Char → Bool
  | none => true
  | some c => !isWordChar c

/-- The `\b` condition on the right of the match, given the remaining
characters. -/
def boundaryAfter : List Char → Bool
  | [] => true
  | c :: _ => !isWordChar c

/-- First alternative `\b(\d{4}-\d{2}-\d{2})\b` anchored at the current
position; returns the matched characters. -/
def tryAlt1 (prev : Option Char) : List Char → Option (List Char)
  | d1 :: d2 :: d3 :: d4 :: h1 :: d5 :: d6 :: h2 :: d7 :: d8 :: rest =>
    if boundaryBefore prev && d1.isDigit && d2.isDigit && d3.isDigit && d4.isDigit
        && h1 == '-' && d5.isDigit && d6.isDigit && h2 == '-' && d7.isDigit && d8.isDigit
        && boundaryAfter rest
    then some [d1, d2, d3, d4, h1, d5, d6, h2, d7, d8] else none
  | _ => none

/-- Second alternative `\b(\d{2}-\d{2}-\d{4})\b` anchored at the current
position. -/
def tryAlt2 (prev : Option Char) : List Char → Option (List Char)
  | d1 :: d2 :: h1 :: d3 :: d4 :: h2 :: d5 :: d6 :: d7 :: d8 :: rest =>
    if boundaryBefore prev && d1.isDigit && d2.isDigit && h1 == '-' && d3.isDigit && d4.isDigit
        && h2 == '-' && d5.isDigit && d6.isDigit && d7.isDigit && d8.isDigit
        && boundaryAfter rest
    then some [d1, d2, h1, d3, d4, h2, d5, d6, d7, d8] else none
  | _ => none

/-- Leftmost match of the alternation, `re.search` semantics: positions are
scanned left to right, each trying alternative 1 then alternative 2. -/
def dateSearch (prev : Option Char) : List Char → Option (List Char)
  | [] => none
  | c :: rest =>
    match tryAlt1 prev (c :: rest) with
    | some m => some m
    | none =>
      match tryAlt2 prev (c :: rest) with
      | some m => some m
      | none => dateSearch (some c) rest

/-- The `re.match(r"\d{4}-\d{2}-\d{2}", ds)` test (unanchored at the end). -/
def matchesYMD (ds : String) : Bool :=
  match ds.toList with
  | d1 :: d2 :: d3 :: d4 :: h1 :: d5 :: d6 :: h2 :: d7 :: d8 :: _ =>
    d1.isDigit && d2.isDigit && d3.isDigit && d4.isDigit && h1 == '-'
      && d5.isDigit && d6.isDigit && h2 == '-' && d7.isDigit && d8.isDigit
  | _ => false

/-- Normalization of the matched date text (lines 151-155): a `YYYY-MM-DD`
match is reordered to `MM-DD-YYYY` via `split("-")`, any other match is
returned verbatim.  (For match texts, which are exactly ten characters, the
split always has three parts; the catch-all branch is unreachable there.) -/
def normalizeDate (ds : String) : String :=
  if matchesYMD ds then
    match (splitChar '-' ds.toList).map String.mk with
    | [y, mm, dd] => mm ++ "-" ++ dd ++ "-" ++ y
    | _ => ds
  else ds

/-- Lines 145-156: the first cell containing a date match decides; absence of
a date is not an error. -/
def extract_date_from_row (row : Row) : Option String :=
  row.cells.findSome? fun txt =>
    match dateSearch none txt.toList with
    | some m => some (normalizeDate (String.mk m))
    | none => none

/-! ### URL helpers (`urljoin`, `urlparse`, `os.path.basename`, `unquote`) -/

/-- Characters allowed in a URL scheme after the first letter. -/
def schemeChar (c : Char) : Bool := c.isAlphanum || c == '+' || c == '-' || c == '.'

/-- Whether the character list starts with `scheme:` (a letter followed by
scheme characters, with the colon occurring before any `/`, `?` or `#`). -/
def hasSchemeAux : List Char → Bool → Bool
  | [], _ => false
  | c :: rest, first =>
    if c == ':' then !first
    else if c == '/' || c == '?' || c == '#' then false
    else if first then (if c.isAlpha then hasSchemeAux rest false else false)
    else (if schemeChar c then hasSchemeAux rest false else false)

def hasScheme (cs : List Char) : Bool := hasSchemeAux cs true

/-- Drops everything up to and including the first colon. -/
def dropThroughColon : List Char → List Char
  | [] => []
  | c :: rest => if c == ':' then rest else dropThroughColon rest

/-- Drops a leading `//netloc` part; the netloc ends at the first `/`, `?` or
`#`, which is kept. -/
def dropNetloc (cs : List Char) : List Char :=
  match cs with
  | '/' :: '/' :: rest => rest.dropWhile (fun c => !(c == '/' || c == '?' || c == '#'))
  | _ => cs

/-- Path component of `urlsplit`: scheme and netloc removed, truncated at the
fragment (`#`) and query (`?`) delimiters. -/
def urlsplitPath (cs : List Char) : List Char :=
  let cs1 := if hasScheme cs then dropThroughColon cs else cs
  let cs2 := dropNetloc cs1
  let cs3 := cs2.takeWhile (fun c => !(c == '#'))
  cs3.takeWhile (fun c => !(c == '?'))

/-- Characters after the last `/` (the whole list when no `/` occurs); this is
`os.path.basename` for POSIX paths. -/
def afterLastSlash (cs : List Char) : List Char :=
  cs.foldl (fun acc c => if c == '/' then [] else acc ++ [c]) []

/-- Value of an ASCII hex digit. -/
def hexDigitVal (c : Char) : Option Nat :=
  let n := c.toNat
  if 48 ≤ n ∧ n ≤ 57 then some (n - 48)
  else if 97 ≤ n ∧ n ≤ 102 then some (n - 87)
  else if 65 ≤ n ∧ n ≤ 70 then some (n - 55)
  else none

/-- Percent decoding of `urllib.parse.unquote` restricted to single-byte
escapes: a valid `%XX` pair becomes the character with that code, an invalid
escape is left verbatim. -/
def unquoteChars : List Char → List Char
  | [] => []
  | '%' :: h1 :: h2 :: rest =>
    match hexDigitVal h1, hexDigitVal h2 with
    | some a, some b => Char.ofNat (16 * a + b) :: unquoteChars rest
    | _, _ => '%' :: unquoteChars (h1 :: h2 :: rest)
  | c :: rest => c :: unquoteChars rest

def unquote (s : String) : String := String.mk (unquoteChars s.toList)

/-- Lines 128-131: `urlparse(url).path`, `os.path.basename`, `unquote`.  The
basename also cuts the `;params` part of the last segment, which `urlparse`
separates from the path. -/
def normalize_filename_from_url (url : String) : String :=
  let path := urlsplitPath url.toList
  let name := (afterLastSlash path).takeWhile (fun c => !(c == ';'))
  String.mk (unquoteChars name)

/-- Subset of `urllib.parse.urljoin` for the fixed base of this scraper (an
absolute https URL with empty path): a reference with its own scheme is
returned as is, protocol-relative and root-relative references are resolved
against the base, and any other non-empty reference is attached below the
(empty) base path.  Dot-segment removal is not modelled. -/
def urljoin (base url : String) : String :=
  if url = "" then base
  else if hasScheme url.toList then url
  else if ['/', '/'].isPrefixOf url.toList then "https:" ++ url
  else if ['/'].isPrefixOf url.toList then base ++ url
  else base ++ "/" ++ url

/-! ### Row link selection and detail-page resolution -/

/-- Lines 158-169: choose the anchor whose visible text is `view report`
after stripping and lowercasing; otherwise the row's last anchor; raise when
the row has no anchors. -/
def extract_detail_url_from_row (row : Row) : Except Err String :=
  match row.links.find? (fun a => pyLower (pyStrip a.text) == "view report") with
  | some a => Except.ok (urljoin BASE a.href)
  | none =>
    match row.links.getLast? with
    | none => Except.error (Err.runtimeError "No links in latest row.")
    | some a => Except.ok (urljoin BASE a.href)

/-- Lines 171-176: the first anchor whose href ends in `.pdf`
(case-insensitively), resolved against the base; `World.anchors` lists the
hrefs of the document's anchors in order. -/
def extract_pdf_from_detail_html (w : World) (html : String) : Except Err String :=
  match (w.anchors html).find? (fun h => pyEndsWith (pyLower h) ".pdf") with
  | some h => Except.ok (urljoin BASE h)
  | none => Except.error (Err.runtimeError "Could not find PDF link on detail page.")

/-! ### Deadline clock and resilient fetch -/

/-- Lines 78-81: raise `TimeoutError` when the remaining budget is exhausted.
One clock reading is consumed. -/
def check_deadline (w : World) (point : String) (s : St) : St × Except Err Unit :=
  let t := w.timeLeft s.tIdx
  let s1 : St := { s with tIdx := s.tIdx + 1 }
  if t ≤ 0 then (s1, Except.error (Err.deadlineExceeded point))
  else (s1, Except.ok ())

/-- Lines 105-110: deadline check, jitter sleep (unobservable), then one
`session.get` whose outcome (including `raise_for_status`) comes from the
network oracle. -/
def get_with_jitter (w : World) (url : String) (s : St) : St × Except Err String :=
  bindE (check_deadline w ("fetching " ++ url) s) fun _ s =>
    let r := w.net s.nIdx
    let s1 : St := { s with nIdx := s.nIdx + 1, trace := Event.netGet url :: s.trace }
    (s1, r)

/-- Line 185 and line 220: the target filename.  Python tests the truthiness
of `report_date_str`, so an empty date string would also fall back to the
URL-derived name. -/
def mkFilename (reportDate : Option String) (pdfUrl : String) : String :=
  match reportDate with
  | some d =>
    if d = "" then normalize_filename_from_url pdfUrl
    else "National Hemp Report " ++ d ++ ".pdf"
  | none => normalize_filename_from_url pdfUrl

/-- Lines 178-186: the plain-HTTP locate+resolve sequence. -/
def scrape_with_requests (w : World) (s : St) : St × Except Err Artifact :=
  bindE (get_with_jitter w LIST_URL s) fun listHtml s =>
  bindE (s, w.parseList listHtml) fun row s =>
  let reportDate := extract_date_from_row row
  bindE (s, extract_detail_url_from_row row) fun detailUrl s =>
  bindE (get_with_jitter w detailUrl s) fun detailHtml s =>
  bindE (s, extract_pdf_from_detail_html w detailHtml) fun pdfUrl s =>
  (s, Except.ok { detailUrl := detailUrl, pdfUrl := pdfUrl,
                  filename := mkFilename reportDate pdfUrl })

/-! ### Headless fallback (`scrape_with_selenium`, lines 189-223) -/

/-- Lines 206 and 215: the bound passed to `WebDriverWait`,
`min(30, int(max(5, time_left())))`. -/
def selenium_wait_bound (t : Int) : Int := min 30 (max 5 t)

/-- One `driver.get` plus `WebDriverWait(...).until(...)` plus
`driver.page_source`: consumes one clock reading for the bound and one
browser-oracle entry; a wait timeout raises Selenium's `TimeoutException`. -/
def seleniumWaitStep (w : World) (url : String) (s : St) : St × Except Err String :=
  let s1 := emit (Event.browserNav url) s
  let t := w.timeLeft s1.tIdx
  let s2 : St := { s1 with tIdx := s1.tIdx + 1 }
  let b := selenium_wait_bound t
  let ok := w.waitOk s2.sIdx
  let html := w.renderedHtml s2.sIdx
  let s3 : St := { s2 with sIdx := s2.sIdx + 1, trace := Event.domWait b ok :: s2.trace }
  if ok then (s3, Except.ok html) else (s3, Except.error Err.renderTimeout)

/-- Lines 205-221: the body of the `try` block, after the driver exists. -/
def seleniumBody (w : World) (s : St) : St × Except Err Artifact :=
  bindE (seleniumWaitStep w LIST_URL s) fun html s =>
  bindE (s, w.parseList html) fun row s =>
  let reportDate := extract_date_from_row row
  bindE (s, extract_detail_url_from_row row) fun detailUrl s =>
  bindE (seleniumWaitStep w detailUrl s) fun html2 s =>
  bindE (s, extract_pdf_from_detail_html w html2) fun pdfUrl s =>
  (s, Except.ok { detailUrl := detailUrl, pdfUrl := pdfUrl,
                  filename := mkFilename reportDate pdfUrl })

/-- Lines 189-223: deadline check before any browser resource is acquired,
then launch, body and the `finally: driver.quit()` on every exit path. -/
def scrape_with_selenium (w : World) (s : St) : St × Except Err Artifact :=
  bindE (check_deadline w "initializing Selenium" s) fun _ s =>
  let s1 := emit Event.browserLaunch s
  match seleniumBody w s1 with
  | (s2, r) => (emit Event.browserQuit s2, r)

/-! ### Harvest orchestrator (`scrape_latest_detail_and_pdf`, lines 225-236) -/

/-- One iteration of the plain-HTTP attempt loop: `check_deadline` then
`scrape_with_requests`. -/
def http_attempt (w : World) (s : St) : St × Except Err Artifact :=
  bindE (check_deadline w "scrape_with_requests" s) fun _ s =>
  scrape_with_requests w s

/-- Lines 225-236: two plain-HTTP attempts (each failure logged, with a short
pause), then the Selenium fallback, whose result or failure is returned as
is. -/
def scrape_latest_detail_and_pdf (w : World) (s : St) : St × Except Err Artifact :=
  match http_attempt w s with
  | (s1, Except.ok a) => (s1, Except.ok a)
  | (s1, Except.error _) =>
    let s1a := emit (Event.warn "requests scrape attempt 1 failed") s1
    match http_attempt w s1a with
    | (s2, Except.ok a) => (s2, Except.ok a)
    | (s2, Except.error _) =>
      let s2a := emit (Event.warn "requests scrape attempt 2 failed") s2
      scrape_with_selenium w s2a

/-! ### Azure storage and notification -/

/-- Lines 119-122 value logic: decode the marker blob, strip it, and map both
a read failure (`none` storage content) and empty stripped content to `None`.
Note the returned value is the stripped content. -/
def latest_seen_value (s : St) : Option String :=
  match s.marker with
  | none => none
  | some c => if pyStrip c = "" then none else some (pyStrip c)

/-- Lines 116-122: `read_latest_seen`, with its read recorded in the trace. -/
def read_latest_seen (s : St) : St × Option String :=
  (emit Event.readMarker s, latest_seen_value s)

/-- Lines 124-126: overwrite the marker blob; an SDK failure propagates. -/
def write_latest_seen (w : World) (v : String) (s : St) : St × Except Err Unit :=
  let s1 := emit (Event.markerWrite v) s
  let ok := w.putOk s1.pIdx
  let s2 : St := { s1 with pIdx := s1.pIdx + 1 }
  if ok then ({ s2 with marker := some v }, Except.ok ())
  else (s2, Except.error Err.storageError)

/-- Lines 257-262: `get_blob_properties` in a `try`/`except`, yielding an
existence flag (any failure counts as non-existence). -/
def blob_exists_check (path : String) (s : St) : St × Bool :=
  let r := s.blobs.contains path
  (emit (Event.existsCheck path r) s, r)

/-- Line 275: `container_client.upload_blob(..., overwrite=True)`; a failure
raises into the surrounding retry loop. -/
def upload_blob (w : World) (path : String) (s : St) : St × Except Err Unit :=
  let s1 := emit (Event.uploadTry path) s
  let ok := w.putOk s1.pIdx
  let s2 : St := { s1 with pIdx := s1.pIdx + 1 }
  if ok then
    ({ s2 with blobs := path :: s2.blobs, trace := Event.uploadOk path :: s2.trace },
     Except.ok ())
  else (s2, Except.error Err.storageError)

/-- Lines 49-71: the notification is sent unconditionally and any failure is
swallowed, so it is observable only as an event. -/
def send_notification_email (s : St) : St := emit Event.email s

/-! ### Sync reconciler (`main`, lines 238-288) -/

/-- One iteration of the download retry loop (lines 272-275): deadline check,
binary fetch, archive upload. -/
def download_attempt (w : World) (pdfUrl blobPath : String) (s : St) : St × Except Err Unit :=
  bindE (check_deadline w "downloading PDF" s) fun _ s =>
  bindE (get_with_jitter w pdfUrl s) fun _ s =>
  upload_blob w blobPath s

/-- Lines 270-283: two download/upload attempts; the second failure is
re-raised as a `RuntimeError` wrapping the original exception text. -/
def download_and_upload (w : World) (pdfUrl blobPath : String) (s : St) : St × Except Err Unit :=
  match download_attempt w pdfUrl blobPath s with
  | (s1, Except.ok _) => (s1, Except.ok ())
  | (s1, Except.error _) =>
    let s1a := emit (Event.warn "PDF download attempt 1 failed") s1
    match download_attempt w pdfUrl blobPath s1a with
    | (s2, Except.ok _) => (s2, Except.ok ())
    | (s2, Except.error e) =>
      (s2, Except.error (Err.runtimeError
        ("Failed to download/upload PDF after retries: " ++ errMsg e)))

/-- Line 248: Python truthiness of `latest_seen and latest_seen == pdf_url`. -/
def markerMatches (latest : Option String) (pdfUrl : String) : Bool :=
  match latest with
  | none => false
  | some v => (!(v == "")) && (v == pdfUrl)

/-- Lines 248-288: the part of `main` after the harvest, given the marker
value read at run start. -/
def reconcile_with (w : World) (latest : Option String) (a : Artifact) (s : St) :
    St × Except Err Outcome :=
  if markerMatches latest a.pdfUrl then
    (send_notification_email s, Except.ok Outcome.noChange)
  else
    let blobPath := AZURE_BLOB_DIRECTORY ++ a.filename
    match blob_exists_check blobPath s with
    | (s1, true) =>
      bindE (write_latest_seen w a.pdfUrl s1) fun _ s =>
      (send_notification_email s, Except.ok Outcome.skipped)
    | (s1, false) =>
      bindE (download_and_upload w a.pdfUrl blobPath s1) fun _ s =>
      bindE (write_latest_seen w a.pdfUrl s) fun _ s =>
      (send_notification_email s, Except.ok Outcome.uploaded)

/-- The reconcile sequence of the spec as a standalone operation: read the
marker, then decide and act for an already-resolved artifact. -/
def reconcile (w : World) (a : Artifact) (s : St) : St × Except Err Outcome :=
  match read_latest_seen s with
  | (s1, latest) => reconcile_with w latest a s1

/-- Lines 238-288: read the marker, harvest, then reconcile. -/
def main (w : World) (s : St) : St × Except Err Outcome :=
  match read_latest_seen s with
  | (s1, latest) =>
    bindE (scrape_latest_detail_and_pdf w s1) fun a s =>
    reconcile_with w latest a s

/-! ### Predicates used by the theorems -/

/-- The storage-relevant parts of the state (marker content, existing blobs,
write counter) are unchanged between `s` and `t`. -/
def pres (s t : St) : Prop :=
  t.marker = s.marker ∧ t.blobs = s.blobs ∧ t.pIdx = s.pIdx

/-- No marker write occurs in the trace. -/
def noMW (tr : List Event) : Prop := ∀ v, Event.markerWrite v ∉ tr

/-- The trace contains a confirmation that the archive object is durably
stored: either a successful archive upload or a positive existence check. -/
def confirmIn (tr : List Event) : Prop :=
  ∃ p, Event.uploadOk p ∈ tr ∨ Event.existsCheck p true ∈ tr

/-- Every marker write in the trace (most recent event first) is preceded by
a stored-archive confirmation: whatever is to the right of the write in the
list happened earlier and must already contain the confirmation. -/
def markerSound (tr : List Event) : Prop :=
  ∀ t1 v t2, tr = t1 ++ Event.markerWrite v :: t2 → confirmIn t2

/-! ### Concrete fixtures used by the witness theorems -/

/-- The empty initial state of a fresh run. -/
def S0 : St := {}

/-- An environment in which everything succeeds: ample deadline budget, a
listing page parsing to one row with a date cell and a `View Report` link, a
detail page with one PDF link, reliable storage. -/
def Wok : World := {
  timeLeft := fun _ => 100
  net := fun _ => Except.ok "page"
  parseList := fun _ => Except.ok { cells := ["National Hemp Report", "2025-08-27"],
                                    links := [{ text := " View Report ", href := "/d" }] }
  anchors := fun _ => ["/files/report.pdf"]
  renderedHtml := fun _ => "rendered"
  waitOk := fun _ => true
  putOk := fun _ => true }

/-- The artifact the pipeline resolves under `Wok`. -/
def Aok : Artifact := {
  detailUrl := "https://mymarketnews.ams.usda.gov/d"
  pdfUrl := "https://mymarketnews.ams.usda.gov/files/report.pdf"
  filename := "National Hemp Report 08-27-2025.pdf" }

/-- Like `Wok` but with the global deadline already exhausted. -/
def Wdead : World := { Wok with timeLeft := fun _ => 0 }

/-- Like `Wok` but every plain HTTP request fails; the rendered browser tier
still succeeds. -/
def Wnetfail : World :=
  { Wok with net := fun _ => Except.error (Err.fetchError "connection reset") }

/-- Initial state whose marker already names the artifact of `Wok`. -/
def SmarkerOk : St := { S0 with marker := some Aok.pdfUrl }

/-- Initial state in which the archive object of `Wok`'s artifact already
exists but the marker does not match. -/
def SblobOk : St := { S0 with blobs := [AZURE_BLOB_DIRECTORY ++ Aok.filename] }

/-- Initial state whose marker blob holds only whitespace. -/
def Sblank : St := { S0 with marker := some "   " }

/-! ## Theorems

First the generic infrastructure lemmas about `bindE`, state preservation and
traces, then one theorem per claim (with its witness or counterexample). -/

@[simp]
theorem bindE_ok {α β : Type} (s : St) (a : α) (f : α → St → St × Except Err β) :
    bindE (s, Except.ok a) f = f a s := rfl

@[simp]
theorem bindE_error {α β : Type} (s : St) (e : Err) (f : α → St → St × Except Err β) :
    bindE (s, Except.error e) f = (s, Except.error e) := rfl

theorem pres_refl (s : St) : pres s s := ⟨rfl, rfl, rfl⟩

theorem pres_trans {s t u : St} (h1 : pres s t) (h2 : pres t u) : pres s u :=
  ⟨h2.1.trans h1.1, h2.2.1.trans h1.2.1, h2.2.2.trans h1.2.2⟩

theorem emit_pres (e : Event) (s : St) : pres s (emit e s) := ⟨rfl, rfl, rfl⟩

theorem bindE_pres {α β : Type} {s : St} {x : St × Except Err α}
    {f : α → St → St × Except Err β}
    (hx : pres s x.1) (hf : ∀ a s1, pres s1 (f a s1).1) :
    pres s (bindE x f).1 := by
  rcases x with ⟨s1, r⟩
  cases r with
  | ok a => exact pres_trans hx (hf a s1)
  | error e => exact hx

theorem check_deadline_pres (w : World) (p : String) (s : St) :
    pres s (check_deadline w p s).1 := by
  simp only [check_deadline]
  split <;> exact ⟨rfl, rfl, rfl⟩

theorem get_with_jitter_pres (w : World) (u : String) (s : St) :
    pres s (get_with_jitter w u s).1 := by
  unfold get_with_jitter
  exact bindE_pres (check_deadline_pres w _ s) (fun _ s1 => ⟨rfl, rfl, rfl⟩)

theorem scrape_with_requests_pres (w : World) (s : St) :
    pres s (scrape_with_requests w s).1 := by
  unfold scrape_with_requests
  refine bindE_pres (get_with_jitter_pres w LIST_URL s) ?_
  intro listHtml s1
  refine bindE_pres (pres_refl s1) ?_
  intro row s2
  refine bindE_pres (pres_refl s2) ?_
  intro detailUrl s3
  refine bindE_pres (get_with_jitter_pres w detailUrl s3) ?_
  intro detailHtml s4
  refine bindE_pres (pres_refl s4) ?_
  intro pdfUrl s5
  exact pres_refl s5

theorem seleniumWaitStep_pres (w : World) (u : String) (s : St) :
    pres s (seleniumWaitStep w u s).1 := by
  simp only [seleniumWaitStep]
  split <;> exact ⟨rfl, rfl, rfl⟩

theorem seleniumBody_pres (w : World) (s : St) :
    pres s (seleniumBody w s).1 := by
  unfold seleniumBody
  refine bindE_pres (seleniumWaitStep_pres w LIST_URL s) ?_
  intro html s1
  refine bindE_pres (pres_refl s1) ?_
  intro row s2
  refine bindE_pres (pres_refl s2) ?_
  intro detailUrl s3
  refine bindE_pres (seleniumWaitStep_pres w detailUrl s3) ?_
  intro html2 s4
  refine bindE_pres (pres_refl s4) ?_
  intro pdfUrl s5
  exact pres_refl s5

theorem scrape_with_selenium_pres (w : World) (s : St) :
    pres s (scrape_with_selenium w s).1 := by
  unfold scrape_with_selenium
  refine bindE_pres (check_deadline_pres w _ s) ?_
  intro _ s1
  dsimp only
  rcases hb : seleniumBody w (emit Event.browserLaunch s1) with ⟨s2, r⟩
  have h2 : pres s1 s2 := by
    have := seleniumBody_pres w (emit Event.browserLaunch s1)
    rw [hb] at this
    exact this
  exact pres_trans h2 (emit_pres Event.browserQuit s2)

theorem http_attempt_pres (w : World) (s : St) :
    pres s (http_attempt w s).1 := by
  unfold http_attempt
  exact bindE_pres (check_deadline_pres w _ s)
    (fun _ s1 => scrape_with_requests_pres w s1)

theorem scrape_latest_pres (w : World) (s : St) :
    pres s (scrape_latest_detail_and_pdf w s).1 := by
  unfold scrape_latest_detail_and_pdf
  rcases h1 : http_attempt w s with ⟨s1, r1⟩
  have p1 : pres s s1 := by
    have := http_attempt_pres w s
    rw [h1] at this
    exact this
  cases r1 with
  | ok a => exact p1
  | error e =>
    dsimp only
    rcases h2 : http_attempt w (emit (Event.warn "requests scrape attempt 1 failed") s1)
      with ⟨s2, r2⟩
    have p2 : pres s s2 := by
      have := http_attempt_pres w (emit (Event.warn "requests scrape attempt 1 failed") s1)
      rw [h2] at this
      exact pres_trans p1 this
    cases r2 with
    | ok a => exact p2
    | error e =>
      dsimp only
      exact pres_trans p2
        (scrape_with_selenium_pres w
          (emit (Event.warn "requests scrape attempt 2 failed") s2))

/-! ### Stage behaviour with an exhausted deadline budget -/

theorem check_deadline_expired {w : World} {s : St} (p : String)
    (h : w.timeLeft s.tIdx ≤ 0) :
    check_deadline w p s =
      ({ s with tIdx := s.tIdx + 1 }, Except.error (Err.deadlineExceeded p)) := by
  simp only [check_deadline]
  rw [if_pos h]

theorem get_with_jitter_expired {w : World} {s : St} (u : String)
    (h : w.timeLeft s.tIdx ≤ 0) :
    get_with_jitter w u s =
      ({ s with tIdx := s.tIdx + 1 },
       Except.error (Err.deadlineExceeded ("fetching " ++ u))) := by
  unfold get_with_jitter
  rw [check_deadline_expired _ h]
  rfl

theorem scrape_with_requests_expired {w : World} {s : St}
    (h : w.timeLeft s.tIdx ≤ 0) :
    scrape_with_requests w s =
      ({ s with tIdx := s.tIdx + 1 },
       Except.error (Err.deadlineExceeded ("fetching " ++ LIST_URL))) := by
  unfold scrape_with_requests
  rw [get_with_jitter_expired LIST_URL h]
  rfl

theorem http_attempt_expired {w : World} {s : St}
    (h : w.timeLeft s.tIdx ≤ 0) :
    http_attempt w s =
      ({ s with tIdx := s.tIdx + 1 },
       Except.error (Err.deadlineExceeded "scrape_with_requests")) := by
  unfold http_attempt
  rw [check_deadline_expired _ h]
  rfl

theorem scrape_with_selenium_expired {w : World} {s : St}
    (h : w.timeLeft s.tIdx ≤ 0) :
    scrape_with_selenium w s =
      ({ s with tIdx := s.tIdx + 1 },
       Except.error (Err.deadlineExceeded "initializing Selenium")) := by
  unfold scrape_with_selenium
  rw [check_deadline_expired _ h]
  rfl

theorem download_attempt_expired {w : World} {s : St} (u p : String)
    (h : w.timeLeft s.tIdx ≤ 0) :
    download_attempt w u p s =
      ({ s with tIdx := s.tIdx + 1 },
       Except.error (Err.deadlineExceeded "downloading PDF")) := by
  unfold download_attempt
  rw [check_deadline_expired _ h]
  rfl

theorem download_and_upload_expired {w : World} {s : St} (u p : String)
    (h : w.timeLeft s.tIdx ≤ 0) (h2 : w.timeLeft (s.tIdx + 1) ≤ 0) :
    download_and_upload w u p s =
      (emit (Event.warn "PDF download attempt 1 failed") { s with tIdx := s.tIdx + 2 },
       Except.error (Err.runtimeError
         ("Failed to download/upload PDF after retries: "
           ++ errMsg (Err.deadlineExceeded "downloading PDF")))) := by
  unfold download_and_upload
  rw [download_attempt_expired u p h]
  dsimp only
  rw [download_attempt_expired u p h2]
  rfl

/-! ### Claim C1 -/

/-- C1: at each stage entry (listing fetch, detail fetch — both through
`get_with_jitter` —, the plain-HTTP attempt, headless initialization, binary
download), an exhausted deadline budget makes `check_deadline` raise the
deadline failure before any I/O: the stage issues no network request, no
browser launch and no storage write (its trace is unchanged).  In the binary
download stage the deadline failure raised by each of the two attempts is
caught by the retry loop and re-raised as the `RuntimeError` wrapping the
deadline message; the only trace entry is the retry log line — still no
I/O. -/
theorem C1_deadline_blocks_io (w : World) (s : St) (url blobPath point : String)
    (h : w.timeLeft s.tIdx ≤ 0) (h2 : w.timeLeft (s.tIdx + 1) ≤ 0) :
    (check_deadline w point s).2 = Except.error (Err.deadlineExceeded point) ∧
    (get_with_jitter w url s).2
      = Except.error (Err.deadlineExceeded ("fetching " ++ url)) ∧
    (get_with_jitter w url s).1.trace = s.trace ∧
    (scrape_with_requests w s).2
      = Except.error (Err.deadlineExceeded ("fetching " ++ LIST_URL)) ∧
    (scrape_with_requests w s).1.trace = s.trace ∧
    (http_attempt w s).2
      = Except.error (Err.deadlineExceeded "scrape_with_requests") ∧
    (http_attempt w s).1.trace = s.trace ∧
    (scrape_with_selenium w s).2
      = Except.error (Err.deadlineExceeded "initializing Selenium") ∧
    (scrape_with_selenium w s).1.trace = s.trace ∧
    (download_and_upload w url blobPath s).2
      = Except.error (Err.runtimeError
          ("Failed to download/upload PDF after retries: "
            ++ errMsg (Err.deadlineExceeded "downloading PDF"))) ∧
    (download_and_upload w url blobPath s).1.trace
      = Event.warn "PDF download attempt 1 failed" :: s.trace := by
  rw [check_deadline_expired point h, get_with_jitter_expired url h,
    scrape_with_requests_expired h, http_attempt_expired h,
    scrape_with_selenium_expired h, download_and_upload_expired url blobPath h h2]
  exact ⟨rfl, rfl, rfl, rfl, rfl, rfl, rfl, rfl, rfl, rfl, rfl⟩

theorem C1_deadline_blocks_io_witness :
    (Wdead.timeLeft S0.tIdx ≤ 0 ∧ Wdead.timeLeft (S0.tIdx + 1) ≤ 0) ∧
    (check_deadline Wdead "p" S0).2 = Except.error (Err.deadlineExceeded "p") :=
  ⟨⟨by decide, by decide⟩,
   (C1_deadline_blocks_io Wdead S0 "u" "b" "p" (by decide) (by decide)).1⟩

/-! ### Claim C2 -/

/-- C2: when both plain-HTTP attempts fail, the harvest entry point is
literally one invocation of the headless fallback from the state reached
after exactly two plain-HTTP attempts (each logged): its success is returned
and its failure propagates unmodified, with no further tier. -/
theorem C2_fallback_once (w : World) (s : St) (e1 e2 : Err)
    (h1 : (http_attempt w s).2 = Except.error e1)
    (h2 : (http_attempt w
        (emit (Event.warn "requests scrape attempt 1 failed") (http_attempt w s).1)).2
      = Except.error e2) :
    scrape_latest_detail_and_pdf w s
      = scrape_with_selenium w
          (emit (Event.warn "requests scrape attempt 2 failed")
            (http_attempt w
              (emit (Event.warn "requests scrape attempt 1 failed")
                (http_attempt w s).1)).1) := by
  unfold scrape_latest_detail_and_pdf
  rcases ha : http_attempt w s with ⟨s1, r1⟩
  rw [ha] at h1 h2
  cases r1 with
  | ok a => cases h1
  | error f1 =>
    dsimp only at h2 ⊢
    rcases hb : http_attempt w (emit (Event.warn "requests scrape attempt 1 failed") s1)
      with ⟨s2, r2⟩
    rw [hb] at h2
    cases r2 with
    | ok a => cases h2
    | error f2 => rfl

theorem C2_fallback_once_witness :
    ((http_attempt Wnetfail S0).2 = Except.error (Err.fetchError "connection reset") ∧
     (http_attempt Wnetfail
        (emit (Event.warn "requests scrape attempt 1 failed") (http_attempt Wnetfail S0).1)).2
       = Except.error (Err.fetchError "connection reset")) ∧
    scrape_latest_detail_and_pdf Wnetfail S0
      = scrape_with_selenium Wnetfail
          (emit (Event.warn "requests scrape attempt 2 failed")
            (http_attempt Wnetfail
              (emit (Event.warn "requests scrape attempt 1 failed")
                (http_attempt Wnetfail S0).1)).1) :=
  ⟨⟨by decide, by decide⟩,
   C2_fallback_once Wnetfail S0 (Err.fetchError "connection reset")
     (Err.fetchError "connection reset") (by decide) (by decide)⟩

/-! ### Date-match facts used by claim C7 -/

theorem tryAlt1_ne_nil {prev : Option Char} {l m : List Char}
    (h : tryAlt1 prev l = some m) : m ≠ [] := by
  unfold tryAlt1 at h
  split at h
  · split at h
    · cases h
      simp
    · cases h
  · cases h

theorem tryAlt2_ne_nil {prev : Option Char} {l m : List Char}
    (h : tryAlt2 prev l = some m) : m ≠ [] := by
  unfold tryAlt2 at h
  split at h
  · split at h
    · cases h
      simp
    · cases h
  · cases h

theorem dateSearch_ne_nil {l : List Char} :
    ∀ {prev : Option Char} {m : List Char}, dateSearch prev l = some m → m ≠ [] := by
  induction l with
  | nil => intro prev m h; cases h
  | cons c rest ih =>
    intro prev m h
    unfold dateSearch at h
    rcases h1 : tryAlt1 prev (c :: rest) with _ | m1
    · rw [h1] at h
      rcases h2 : tryAlt2 prev (c :: rest) with _ | m2
      · rw [h2] at h
        exact ih h
      · rw [h2] at h
        cases h
        exact tryAlt2_ne_nil h2
    · rw [h1] at h
      cases h
      exact tryAlt1_ne_nil h1

theorem dash_concat_ne_empty (x y z : String) : x ++ "-" ++ y ++ "-" ++ z ≠ "" := by
  intro h
  have hl := congrArg String.length h
  rw [String.length_append, String.length_append, String.length_append,
    String.length_append] at hl
  have h1 : ("-" : String).length = 1 := rfl
  have h0 : ("" : String).length = 0 := rfl
  rw [h1, h0] at hl
  omega

theorem normalizeDate_ne_empty {ds : String} (h : ds ≠ "") : normalizeDate ds ≠ "" := by
  unfold normalizeDate
  split
  · split
    · exact dash_concat_ne_empty _ _ _
    · exact h
  · exact h

theorem findSome?_mem {α β : Type} (l : List α) (f : α → Option β) (d : β)
    (h : l.findSome? f = some d) : ∃ x ∈ l, f x = some d := by
  induction l with
  | nil => cases h
  | cons a as ih =>
    rw [List.findSome?_cons] at h
    rcases hf : f a with _ | v
    · simp only [hf] at h
      rcases ih h with ⟨x, hx, hfx⟩
      exact ⟨x, List.mem_cons_of_mem _ hx, hfx⟩
    · simp only [hf] at h
      exact ⟨a, List.mem_cons_self a as, by rw [hf, h]⟩

theorem extract_date_nonempty {row : Row} {d : String}
    (h : extract_date_from_row row = some d) : d ≠ "" := by
  unfold extract_date_from_row at h
  rcases findSome?_mem _ _ _ h with ⟨txt, _, hf⟩
  rcases hm : dateSearch none txt.toList with _ | m
  · rw [hm] at hf
    cases hf
  · rw [hm] at hf
    cases hf
    apply normalizeDate_ne_empty
    intro hmk
    apply dateSearch_ne_nil hm
    have : (String.mk m).toList = ("" : String).toList := by rw [hmk]
    simpa using this

theorem mkFilename_some {d : String} (h : d ≠ "") (u : String) :
    mkFilename (some d) u = "National Hemp Report " ++ d ++ ".pdf" := by
  simp only [mkFilename]
  rw [if_neg h]

/-! ### Claim C7 -/

/-- Filename law for the plain-HTTP tier (lines 178-186): the listing row
parsed from the fetched page decides the filename. -/
theorem scrape_with_requests_filename {w : World} {s : St} {a : Artifact}
    (h : (scrape_with_requests w s).2 = Except.ok a) :
    ∃ html row,
      w.parseList html = Except.ok row ∧
      (∀ d, extract_date_from_row row = some d →
        a.filename = "National Hemp Report " ++ d ++ ".pdf") ∧
      (extract_date_from_row row = none →
        a.filename = normalize_filename_from_url a.pdfUrl) := by
  unfold scrape_with_requests at h
  rcases hg : get_with_jitter w LIST_URL s with ⟨s1, r1⟩
  try rw [hg] at h
  cases r1 with
  | error e => cases h
  | ok html =>
    rw [bindE_ok] at h
    try dsimp only at h
    rcases hp : w.parseList html with e | row
    · rw [hp] at h
      cases h
    · rw [hp, bindE_ok] at h
      try dsimp only at h
      rcases hdu : extract_detail_url_from_row row with e | du
      · rw [hdu] at h
        cases h
      · rw [hdu, bindE_ok] at h
        try dsimp only at h
        rcases hg2 : get_with_jitter w du s1 with ⟨s4, r4⟩
        try rw [hg2] at h
        cases r4 with
        | error e => cases h
        | ok detailHtml =>
          rw [bindE_ok] at h
          try dsimp only at h
          rcases hpdf : extract_pdf_from_detail_html w detailHtml with e | pdfUrl
          · rw [hpdf] at h
            cases h
          · rw [hpdf, bindE_ok] at h
            try dsimp only at h
            cases Except.ok.inj h
            refine ⟨html, row, hp, ?_, ?_⟩
            · intro d hd
              show mkFilename (extract_date_from_row row) pdfUrl = _
              rw [hd]
              exact mkFilename_some (extract_date_nonempty hd) pdfUrl
            · intro hd
              show mkFilename (extract_date_from_row row) pdfUrl = _
              rw [hd]
              rfl

/-- Filename law for the rendered-DOM walk of the headless tier (lines
205-221): the listing row parsed from the rendered page decides the filename
by the same rule (line 220). -/
theorem seleniumBody_filename {w : World} {s : St} {a : Artifact}
    (h : (seleniumBody w s).2 = Except.ok a) :
    ∃ html row,
      w.parseList html = Except.ok row ∧
      (∀ d, extract_date_from_row row = some d →
        a.filename = "National Hemp Report " ++ d ++ ".pdf") ∧
      (extract_date_from_row row = none →
        a.filename = normalize_filename_from_url a.pdfUrl) := by
  unfold seleniumBody at h
  rcases hw1 : seleniumWaitStep w LIST_URL s with ⟨s1, r1⟩
  try rw [hw1] at h
  cases r1 with
  | error e => cases h
  | ok html =>
    rw [bindE_ok] at h
    try dsimp only at h
    rcases hp : w.parseList html with e | row
    · rw [hp] at h
      cases h
    · rw [hp, bindE_ok] at h
      try dsimp only at h
      rcases hdu : extract_detail_url_from_row row with e | du
      · rw [hdu] at h
        cases h
      · rw [hdu, bindE_ok] at h
        try dsimp only at h
        rcases hw2 : seleniumWaitStep w du s1 with ⟨s4, r4⟩
        try rw [hw2] at h
        cases r4 with
        | error e => cases h
        | ok html2 =>
          rw [bindE_ok] at h
          try dsimp only at h
          rcases hpdf : extract_pdf_from_detail_html w html2 with e | pdfUrl
          · rw [hpdf] at h
            cases h
          · rw [hpdf, bindE_ok] at h
            try dsimp only at h
            cases Except.ok.inj h
            refine ⟨html, row, hp, ?_, ?_⟩
            · intro d hd
              show mkFilename (extract_date_from_row row) pdfUrl = _
              rw [hd]
              exact mkFilename_some (extract_date_nonempty hd) pdfUrl
            · intro hd
              show mkFilename (extract_date_from_row row) pdfUrl = _
              rw [hd]
              rfl

theorem scrape_with_selenium_filename {w : World} {s : St} {a : Artifact}
    (h : (scrape_with_selenium w s).2 = Except.ok a) :
    ∃ html row,
      w.parseList html = Except.ok row ∧
      (∀ d, extract_date_from_row row = some d →
        a.filename = "National Hemp Report " ++ d ++ ".pdf") ∧
      (extract_date_from_row row = none →
        a.filename = normalize_filename_from_url a.pdfUrl) := by
  unfold scrape_with_selenium at h
  rcases hc : check_deadline w "initializing Selenium" s with ⟨sA, r1⟩
  try rw [hc] at h
  cases r1 with
  | error e => cases h
  | ok u =>
    rw [bindE_ok] at h
    try dsimp only at h
    rcases hb : seleniumBody w (emit Event.browserLaunch sA) with ⟨s2, r2⟩
    try rw [hb] at h
    exact seleniumBody_filename (by rw [hb]; exact h)

theorem http_attempt_filename {w : World} {s : St} {a : Artifact}
    (h : (http_attempt w s).2 = Except.ok a) :
    ∃ html row,
      w.parseList html = Except.ok row ∧
      (∀ d, extract_date_from_row row = some d →
        a.filename = "National Hemp Report " ++ d ++ ".pdf") ∧
      (extract_date_from_row row = none →
        a.filename = normalize_filename_from_url a.pdfUrl) := by
  unfold http_attempt at h
  rcases hc : check_deadline w "scrape_with_requests" s with ⟨sA, r1⟩
  try rw [hc] at h
  cases r1 with
  | error e => cases h
  | ok u =>
    rw [bindE_ok] at h
    exact scrape_with_requests_filename h

/-- C7: every successful harvest — whether resolved by the plain-HTTP tier or
by the headless fallback — names the artifact
`National Hemp Report {date}.pdf` when the parsed listing row yielded a date
(a `YYYY-MM-DD` cell match is normalized to `MM-DD-YYYY`), and otherwise uses
the percent-decoded final path segment of the artifact URL.  The closed
conjuncts instantiate the two scenario examples of the claim. -/
theorem C7_filename (w : World) (s : St) (a : Artifact)
    (h : (scrape_latest_detail_and_pdf w s).2 = Except.ok a) :
    (∃ html row,
      w.parseList html = Except.ok row ∧
      (∀ d, extract_date_from_row row = some d →
        a.filename = "National Hemp Report " ++ d ++ ".pdf") ∧
      (extract_date_from_row row = none →
        a.filename = normalize_filename_from_url a.pdfUrl)) ∧
    extract_date_from_row { cells := ["2025-08-27"], links := [] }
      = some "08-27-2025" ∧
    mkFilename (some "08-27-2025") "unused"
      = "National Hemp Report 08-27-2025.pdf" ∧
    normalize_filename_from_url
        "https://mymarketnews.ams.usda.gov/files/weekly-report-v3.pdf"
      = "weekly-report-v3.pdf" := by
  refine ⟨?_, by decide, by decide, by decide⟩
  unfold scrape_latest_detail_and_pdf at h
  rcases h1 : http_attempt w s with ⟨s1, r1⟩
  try rw [h1] at h
  cases r1 with
  | ok b =>
    cases Except.ok.inj h
    exact http_attempt_filename (by rw [h1])
  | error e =>
    dsimp only at h
    rcases h2 : http_attempt w (emit (Event.warn "requests scrape attempt 1 failed") s1)
      with ⟨s2, r2⟩
    try rw [h2] at h
    cases r2 with
    | ok b =>
      cases Except.ok.inj h
      exact http_attempt_filename (by rw [h2])
    | error e2 =>
      dsimp only at h
      exact scrape_with_selenium_filename h

theorem C7_filename_witness :
    (scrape_latest_detail_and_pdf Wnetfail S0).2 = Except.ok Aok ∧
    (∃ html row,
      Wnetfail.parseList html = Except.ok row ∧
      (∀ d, extract_date_from_row row = some d →
        Aok.filename = "National Hemp Report " ++ d ++ ".pdf") ∧
      (extract_date_from_row row = none →
        Aok.filename = normalize_filename_from_url Aok.pdfUrl)) :=
  ⟨by decide, (C7_filename Wnetfail S0 Aok (by decide)).1⟩


/-! ### Reconcile helper lemmas -/

theorem latest_seen_value_some {s : St} {c : String} (hm : s.marker = some c)
    (hne : pyStrip c ≠ "") : latest_seen_value s = some (pyStrip c) := by
  unfold latest_seen_value
  rw [hm]
  dsimp only
  rw [if_neg hne]

theorem markerMatches_some_eq {v p : String} (hne : v ≠ "") (heq : v = p) :
    markerMatches (some v) p = true := by
  subst heq
  simp [markerMatches, hne]

theorem markerMatches_ne {latest : Option String} {p : String}
    (h : latest ≠ some p) : markerMatches latest p = false := by
  cases latest with
  | none => rfl
  | some v =>
    have hv : v ≠ p := fun hh => h (by rw [hh])
    simp [markerMatches, hv]

theorem main_eq_reconcile_with (w : World) (s s2 : St) (a : Artifact)
    (hh : scrape_latest_detail_and_pdf w (emit Event.readMarker s)
        = (s2, Except.ok a)) :
    main w s = reconcile_with w (latest_seen_value s) a s2 := by
  unfold main read_latest_seen
  dsimp only
  rw [hh]
  rfl

/-! ### Claim C3 -/

/-- C3: when the persisted marker (read and stripped at run start) equals the
resolved artifact URL, the run ends with outcome `NoChange`: the binary is
not fetched, storage is not written (marker and blob set unchanged), and the
only event after the harvest is the notification. -/
theorem C3_marker_match_no_change (w : World) (s : St) (c : String) (a : Artifact)
    (hm : s.marker = some c) (hne : pyStrip c ≠ "")
    (hh : (scrape_latest_detail_and_pdf w (emit Event.readMarker s)).2
        = Except.ok a)
    (heq : pyStrip c = a.pdfUrl) :
    (main w s).2 = Except.ok Outcome.noChange ∧
    (main w s).1.marker = s.marker ∧
    (main w s).1.blobs = s.blobs ∧
    (main w s).1.trace
      = Event.email :: (scrape_latest_detail_and_pdf w (emit Event.readMarker s)).1.trace := by
  have hpair : scrape_latest_detail_and_pdf w (emit Event.readMarker s)
      = ((scrape_latest_detail_and_pdf w (emit Event.readMarker s)).1, Except.ok a) := by
    rw [← hh]
  have hmain := main_eq_reconcile_with w s _ a hpair
  have hp := scrape_latest_pres w (emit Event.readMarker s)
  rw [hmain, latest_seen_value_some hm hne]
  unfold reconcile_with
  rw [markerMatches_some_eq hne heq]
  dsimp only [send_notification_email, emit]
  refine ⟨rfl, ?_, ?_, rfl⟩
  · exact hp.1
  · exact hp.2.1

theorem C3_marker_match_no_change_witness :
    (SmarkerOk.marker = some Aok.pdfUrl ∧ pyStrip Aok.pdfUrl ≠ "" ∧
     (scrape_latest_detail_and_pdf Wok (emit Event.readMarker SmarkerOk)).2
       = Except.ok Aok ∧
     pyStrip Aok.pdfUrl = Aok.pdfUrl) ∧
    (main Wok SmarkerOk).2 = Except.ok Outcome.noChange :=
  ⟨⟨rfl, by decide, by decide, by decide⟩,
   (C3_marker_match_no_change Wok SmarkerOk Aok.pdfUrl Aok rfl (by decide)
     (by decide) (by decide)).1⟩

/-! ### Claim C5 -/

/-- C5: when the marker read at run start differs from the resolved artifact
URL but the archive object already exists at the computed path, the outcome
is `Skipped`: after the harvest the run performs exactly the positive
existence check, the marker write and the notification — no binary fetch —
and the marker is advanced to the artifact URL. -/
theorem C5_existing_blob_skipped (w : World) (s : St) (a : Artifact)
    (hr : latest_seen_value s ≠ some a.pdfUrl)
    (hh : (scrape_latest_detail_and_pdf w (emit Event.readMarker s)).2
        = Except.ok a)
    (hb : (AZURE_BLOB_DIRECTORY ++ a.filename) ∈ s.blobs)
    (hw : w.putOk s.pIdx = true) :
    (main w s).2 = Except.ok Outcome.skipped ∧
    (main w s).1.marker = some a.pdfUrl ∧
    (main w s).1.trace
      = Event.email :: Event.markerWrite a.pdfUrl ::
          Event.existsCheck (AZURE_BLOB_DIRECTORY ++ a.filename) true ::
          (scrape_latest_detail_and_pdf w (emit Event.readMarker s)).1.trace := by
  have hpair : scrape_latest_detail_and_pdf w (emit Event.readMarker s)
      = ((scrape_latest_detail_and_pdf w (emit Event.readMarker s)).1, Except.ok a) := by
    rw [← hh]
  have hmain := main_eq_reconcile_with w s _ a hpair
  have hp := scrape_latest_pres w (emit Event.readMarker s)
  set s2 := (scrape_latest_detail_and_pdf w (emit Event.readMarker s)).1 with hs2
  have hc : s2.blobs.contains (AZURE_BLOB_DIRECTORY ++ a.filename) = true := by
    rw [hp.2.1]
    exact List.elem_iff.mpr hb
  have hw2 : w.putOk s2.pIdx = true := by
    rw [hp.2.2]
    exact hw
  rw [hmain]
  unfold reconcile_with
  rw [markerMatches_ne hr]
  dsimp only
  unfold blob_exists_check
  rw [hc]
  dsimp only [emit]
  unfold write_latest_seen
  dsimp only [emit]
  rw [hw2]
  dsimp only [send_notification_email, emit]
  exact ⟨rfl, rfl, rfl⟩

theorem C5_existing_blob_skipped_witness :
    (latest_seen_value SblobOk ≠ some Aok.pdfUrl ∧
     (scrape_latest_detail_and_pdf Wok (emit Event.readMarker SblobOk)).2
       = Except.ok Aok ∧
     (AZURE_BLOB_DIRECTORY ++ Aok.filename) ∈ SblobOk.blobs ∧
     Wok.putOk SblobOk.pIdx = true) ∧
    (main Wok SblobOk).2 = Except.ok Outcome.skipped ∧
    (main Wok SblobOk).1.marker = some Aok.pdfUrl := by
  have h := C5_existing_blob_skipped Wok SblobOk Aok (by decide) (by decide)
    (by decide) (by decide)
  exact ⟨⟨by decide, by decide, by decide, by decide⟩, h.1, h.2.1⟩

/-! ### Claim C6 -/

theorem latest_seen_value_inv {s : St} {v : String}
    (h : latest_seen_value s = some v) :
    ∃ c, s.marker = some c ∧ pyStrip c = v ∧ pyStrip c ≠ "" := by
  unfold latest_seen_value at h
  cases hm : s.marker with
  | none => rw [hm] at h; cases h
  | some c =>
    rw [hm] at h
    dsimp only at h
    by_cases hc : pyStrip c = ""
    · rw [if_pos hc] at h; cases h
    · rw [if_neg hc] at h
      cases h
      exact ⟨c, rfl, rfl, hc⟩

theorem markerMatches_true_inv {latest : Option String} {p : String}
    (h : markerMatches latest p = true) : latest = some p ∧ p ≠ "" := by
  cases latest with
  | none => cases h
  | some v =>
    simp only [markerMatches, Bool.and_eq_true, bne_iff_ne, ne_eq, beq_iff_eq,
      Bool.not_eq_eq_eq_not, Bool.not_true, beq_eq_false_iff_ne] at h
    rcases h with ⟨h1, h2⟩
    subst h2
    exact ⟨rfl, h1⟩

theorem reconcile_eq (w : World) (a : Artifact) (s : St) :
    reconcile w a s
      = reconcile_with w (latest_seen_value s) a (emit Event.readMarker s) := by
  unfold reconcile read_latest_seen
  rfl

theorem reconcile_marker_noChange (w : World) (a : Artifact) (s : St) (c : String)
    (hm : s.marker = some c) (hne : pyStrip c ≠ "") (heq : pyStrip c = a.pdfUrl) :
    (reconcile w a s).2 = Except.ok Outcome.noChange := by
  rw [reconcile_eq, latest_seen_value_some hm hne]
  unfold reconcile_with
  rw [markerMatches_some_eq hne heq]
  rfl

/-- After a successful reconcile, either the marker has been advanced to the
artifact URL, or the run was a `NoChange` with the marker untouched because
it already matched. -/
theorem reconcile_with_ok_marker (w : World) (latest : Option String) (a : Artifact)
    (s : St) (out : Outcome)
    (h : (reconcile_with w latest a s).2 = Except.ok out) :
    (reconcile_with w latest a s).1.marker = some a.pdfUrl ∨
    ((reconcile_with w latest a s).1.marker = s.marker ∧
      markerMatches latest a.pdfUrl = true) := by
  unfold reconcile_with at h ⊢
  cases hmm : markerMatches latest a.pdfUrl with
  | true => exact Or.inr ⟨rfl, rfl⟩
  | false =>
    rw [hmm] at h
    rw [if_neg Bool.false_ne_true] at h
    left
    rw [if_neg Bool.false_ne_true]
    dsimp only at h ⊢
    unfold blob_exists_check at h ⊢
    dsimp only at h ⊢
    cases hc : s.blobs.contains (AZURE_BLOB_DIRECTORY ++ a.filename) with
    | true =>
      rw [hc] at h
      dsimp only at h ⊢
      unfold write_latest_seen at h ⊢
      dsimp only [emit] at h ⊢
      cases hput : w.putOk s.pIdx with
      | true => rfl
      | false =>
        rw [hput] at h
        rw [if_neg Bool.false_ne_true] at h
        dsimp only [bindE] at h
        cases h
    | false =>
      rw [hc] at h
      dsimp only at h ⊢
      rcases hd : download_and_upload w a.pdfUrl (AZURE_BLOB_DIRECTORY ++ a.filename)
          (emit (Event.existsCheck (AZURE_BLOB_DIRECTORY ++ a.filename) false) s)
        with ⟨sd, rd⟩
      rw [hd] at h
      try rw [hd]
      cases rd with
      | error e =>
        dsimp only [bindE] at h
        cases h
      | ok u =>
        dsimp only [bindE] at h ⊢
        unfold write_latest_seen at h ⊢
        dsimp only [emit] at h ⊢
        cases hput : w.putOk sd.pIdx with
        | true => rfl
        | false =>
          rw [hput] at h
          rw [if_neg Bool.false_ne_true] at h
          dsimp only [bindE] at h
          cases h

/-- C6: reconciliation is idempotent — if a reconcile run for a resolved
artifact succeeds (with any outcome), running it again for the same artifact
with no external storage change in between yields `NoChange`, because every
`Uploaded` or `Skipped` run leaves the marker equal to the artifact URL and a
`NoChange` run requires it already equal.  (The artifact URL of a resolved
artifact is non-empty and free of surrounding whitespace: it ends in
`.pdf`.) -/
theorem C6_reconcile_idempotent (w : World) (a : Artifact) (s : St) (out : Outcome)
    (hstrip : pyStrip a.pdfUrl = a.pdfUrl) (hne : a.pdfUrl ≠ "")
    (h1 : (reconcile w a s).2 = Except.ok out) :
    (reconcile w a ((reconcile w a s).1)).2 = Except.ok Outcome.noChange := by
  rw [reconcile_eq w a s] at h1 ⊢
  rcases reconcile_with_ok_marker w _ a _ out h1 with hmk | ⟨hmk, hmm⟩
  · exact reconcile_marker_noChange w a _ a.pdfUrl hmk
      (by rw [hstrip]; exact hne) hstrip
  · rcases markerMatches_true_inv hmm with ⟨hlv, _⟩
    rcases latest_seen_value_inv hlv with ⟨c, hc, hcv, hcne⟩
    exact reconcile_marker_noChange w a _ c (hmk.trans hc) hcne (by rw [hcv])

theorem C6_reconcile_idempotent_witness :
    (pyStrip Aok.pdfUrl = Aok.pdfUrl ∧ Aok.pdfUrl ≠ "" ∧
     (reconcile Wok Aok S0).2 = Except.ok Outcome.uploaded) ∧
    (reconcile Wok Aok ((reconcile Wok Aok S0).1)).2 = Except.ok Outcome.noChange :=
  ⟨⟨by decide, by decide, by decide⟩,
   C6_reconcile_idempotent Wok Aok S0 Outcome.uploaded (by decide) (by decide)
     (by decide)⟩

/-! ### Trace infrastructure -/

theorem mem_of_mem_cons_ne {e ev : Event} {tr : List Event} (hne : e ≠ ev)
    (h : e ∈ ev :: tr) : e ∈ tr := by
  rcases List.mem_cons.mp h with h1 | h1
  · exact absurd h1 hne
  · exact h1

theorem bindE_mem_back {α β : Type} {s : St} {x : St × Except Err α}
    {f : α → St → St × Except Err β} {ev : Event}
    (hx : ev ∈ x.1.trace → ev ∈ s.trace)
    (hf : ∀ a s1, ev ∈ (f a s1).1.trace → ev ∈ s1.trace) :
    ev ∈ (bindE x f).1.trace → ev ∈ s.trace := by
  rcases x with ⟨s1, r⟩
  cases r with
  | ok a => exact fun h => hx (hf a s1 h)
  | error e => exact hx

theorem bindE_mem_mono {α β : Type} {s : St} {x : St × Except Err α}
    {f : α → St → St × Except Err β} {ev : Event}
    (hx : ev ∈ s.trace → ev ∈ x.1.trace)
    (hf : ∀ a s1, ev ∈ s1.trace → ev ∈ (f a s1).1.trace) :
    ev ∈ s.trace → ev ∈ (bindE x f).1.trace := by
  rcases x with ⟨s1, r⟩
  cases r with
  | ok a => exact fun h => hf a s1 (hx h)
  | error e => exact hx

theorem bindE_marker {α β : Type} {s : St} {x : St × Except Err α}
    {f : α → St → St × Except Err β}
    (hx : x.1.marker = s.marker) (hf : ∀ a s1, (f a s1).1.marker = s1.marker) :
    (bindE x f).1.marker = s.marker := by
  rcases x with ⟨s1, r⟩
  cases r with
  | ok a => exact (hf a s1).trans hx
  | error e => exact hx

theorem check_deadline_trace (w : World) (p : String) (s : St) :
    (check_deadline w p s).1.trace = s.trace := by
  simp only [check_deadline]
  split <;> rfl

/-! #### No marker write inside the harvest and download tiers -/

theorem get_with_jitter_mw {w : World} {u : String} {s : St} {v : String} :
    Event.markerWrite v ∈ (get_with_jitter w u s).1.trace →
    Event.markerWrite v ∈ s.trace := by
  unfold get_with_jitter
  refine bindE_mem_back ?_ ?_
  · rw [check_deadline_trace]
    exact id
  · intro a s1 h
    exact mem_of_mem_cons_ne (fun hh => Event.noConfusion hh) h

theorem scrape_with_requests_mw {w : World} {s : St} {v : String} :
    Event.markerWrite v ∈ (scrape_with_requests w s).1.trace →
    Event.markerWrite v ∈ s.trace := by
  unfold scrape_with_requests
  refine bindE_mem_back get_with_jitter_mw ?_
  intro listHtml s1
  refine bindE_mem_back id ?_
  intro row s2
  refine bindE_mem_back id ?_
  intro detailUrl s3
  refine bindE_mem_back get_with_jitter_mw ?_
  intro detailHtml s4
  refine bindE_mem_back id ?_
  intro pdfUrl s5
  exact id

theorem seleniumWaitStep_mw {w : World} {u : String} {s : St} {v : String} :
    Event.markerWrite v ∈ (seleniumWaitStep w u s).1.trace →
    Event.markerWrite v ∈ s.trace := by
  simp only [seleniumWaitStep, emit]
  split <;>
    exact fun h =>
      mem_of_mem_cons_ne (fun hh => Event.noConfusion hh)
        (mem_of_mem_cons_ne (fun hh => Event.noConfusion hh) h)

theorem seleniumBody_mw {w : World} {s : St} {v : String} :
    Event.markerWrite v ∈ (seleniumBody w s).1.trace →
    Event.markerWrite v ∈ s.trace := by
  unfold seleniumBody
  refine bindE_mem_back seleniumWaitStep_mw ?_
  intro html s1
  refine bindE_mem_back id ?_
  intro row s2
  refine bindE_mem_back id ?_
  intro detailUrl s3
  refine bindE_mem_back seleniumWaitStep_mw ?_
  intro html2 s4
  refine bindE_mem_back id ?_
  intro pdfUrl s5
  exact id

theorem scrape_with_selenium_mw {w : World} {s : St} {v : String} :
    Event.markerWrite v ∈ (scrape_with_selenium w s).1.trace →
    Event.markerWrite v ∈ s.trace := by
  unfold scrape_with_selenium
  refine bindE_mem_back ?_ ?_
  · rw [check_deadline_trace]
    exact id
  · intro a s1
    dsimp only
    rcases hb : seleniumBody w (emit Event.browserLaunch s1) with ⟨s2, r⟩
    intro h
    have h2 : Event.markerWrite v ∈ s2.trace :=
      mem_of_mem_cons_ne (fun hh => Event.noConfusion hh) h
    have h3 : Event.markerWrite v ∈ (emit Event.browserLaunch s1).trace := by
      have := @seleniumBody_mw w (emit Event.browserLaunch s1) v
      rw [hb] at this
      exact this h2
    exact mem_of_mem_cons_ne (fun hh => Event.noConfusion hh) h3

theorem http_attempt_mw {w : World} {s : St} {v : String} :
    Event.markerWrite v ∈ (http_attempt w s).1.trace →
    Event.markerWrite v ∈ s.trace := by
  unfold http_attempt
  refine bindE_mem_back ?_ ?_
  · rw [check_deadline_trace]
    exact id
  · intro a s1
    exact scrape_with_requests_mw

theorem scrape_latest_mw {w : World} {s : St} {v : String} :
    Event.markerWrite v ∈ (scrape_latest_detail_and_pdf w s).1.trace →
    Event.markerWrite v ∈ s.trace := by
  unfold scrape_latest_detail_and_pdf
  rcases h1 : http_attempt w s with ⟨s1, r1⟩
  have b1 : Event.markerWrite v ∈ s1.trace → Event.markerWrite v ∈ s.trace := by
    have := @http_attempt_mw w s v
    rw [h1] at this
    exact this
  cases r1 with
  | ok a => exact b1
  | error e =>
    dsimp only
    rcases h2 : http_attempt w (emit (Event.warn "requests scrape attempt 1 failed") s1)
      with ⟨s2, r2⟩
    have b2 : Event.markerWrite v ∈ s2.trace → Event.markerWrite v ∈ s.trace := by
      have := @http_attempt_mw w (emit (Event.warn "requests scrape attempt 1 failed") s1) v
      rw [h2] at this
      exact fun h =>
        b1 (mem_of_mem_cons_ne (fun hh => Event.noConfusion hh) (this h))
    cases r2 with
    | ok a => exact b2
    | error e =>
      dsimp only
      intro h
      have h3 := scrape_with_selenium_mw h
      exact b2 (mem_of_mem_cons_ne (fun hh => Event.noConfusion hh) h3)

theorem upload_blob_mw {w : World} {p : String} {s : St} {v : String} :
    Event.markerWrite v ∈ (upload_blob w p s).1.trace →
    Event.markerWrite v ∈ s.trace := by
  simp only [upload_blob, emit]
  split
  · exact fun h =>
      mem_of_mem_cons_ne (fun hh => Event.noConfusion hh)
        (mem_of_mem_cons_ne (fun hh => Event.noConfusion hh) h)
  · exact fun h => mem_of_mem_cons_ne (fun hh => Event.noConfusion hh) h

theorem download_attempt_mw {w : World} {u p : String} {s : St} {v : String} :
    Event.markerWrite v ∈ (download_attempt w u p s).1.trace →
    Event.markerWrite v ∈ s.trace := by
  unfold download_attempt
  refine bindE_mem_back ?_ ?_
  · rw [check_deadline_trace]
    exact id
  · intro a s1
    refine bindE_mem_back get_with_jitter_mw ?_
    intro b s2
    exact upload_blob_mw

theorem download_and_upload_mw {w : World} {u p : String} {s : St} {v : String} :
    Event.markerWrite v ∈ (download_and_upload w u p s).1.trace →
    Event.markerWrite v ∈ s.trace := by
  unfold download_and_upload
  rcases h1 : download_attempt w u p s with ⟨s1, r1⟩
  have b1 : Event.markerWrite v ∈ s1.trace → Event.markerWrite v ∈ s.trace := by
    have := @download_attempt_mw w u p s v
    rw [h1] at this
    exact this
  cases r1 with
  | ok a => exact b1
  | error e =>
    dsimp only
    rcases h2 : download_attempt w u p (emit (Event.warn "PDF download attempt 1 failed") s1)
      with ⟨s2, r2⟩
    have b2 : Event.markerWrite v ∈ s2.trace → Event.markerWrite v ∈ s.trace := by
      have := @download_attempt_mw w u p (emit (Event.warn "PDF download attempt 1 failed") s1) v
      rw [h2] at this
      exact fun h =>
        b1 (mem_of_mem_cons_ne (fun hh => Event.noConfusion hh) (this h))
    cases r2 with
    | ok a => exact b2
    | error e => exact b2

/-! #### Trace membership is monotone along the download path -/

theorem get_with_jitter_mono {w : World} {u : String} {s : St} {ev : Event} :
    ev ∈ s.trace → ev ∈ (get_with_jitter w u s).1.trace := by
  unfold get_with_jitter
  refine bindE_mem_mono ?_ ?_
  · rw [check_deadline_trace]
    exact id
  · intro a s1
    exact List.mem_cons_of_mem _

theorem upload_blob_mono {w : World} {p : String} {s : St} {ev : Event} :
    ev ∈ s.trace → ev ∈ (upload_blob w p s).1.trace := by
  simp only [upload_blob, emit]
  split
  · exact fun h => List.mem_cons_of_mem _ (List.mem_cons_of_mem _ h)
  · exact fun h => List.mem_cons_of_mem _ h

theorem download_attempt_mono {w : World} {u p : String} {s : St} {ev : Event} :
    ev ∈ s.trace → ev ∈ (download_attempt w u p s).1.trace := by
  unfold download_attempt
  refine bindE_mem_mono ?_ ?_
  · rw [check_deadline_trace]
    exact id
  · intro a s1
    refine bindE_mem_mono get_with_jitter_mono ?_
    intro b s2
    exact upload_blob_mono

theorem download_and_upload_mono {w : World} {u p : String} {s : St} {ev : Event} :
    ev ∈ s.trace → ev ∈ (download_and_upload w u p s).1.trace := by
  unfold download_and_upload
  rcases h1 : download_attempt w u p s with ⟨s1, r1⟩
  have m1 : ev ∈ s.trace → ev ∈ s1.trace := by
    have := @download_attempt_mono w u p s ev
    rw [h1] at this
    exact this
  cases r1 with
  | ok a => exact m1
  | error e =>
    dsimp only
    rcases h2 : download_attempt w u p (emit (Event.warn "PDF download attempt 1 failed") s1)
      with ⟨s2, r2⟩
    have m2 : ev ∈ s.trace → ev ∈ s2.trace := by
      have := @download_attempt_mono w u p
        (emit (Event.warn "PDF download attempt 1 failed") s1) ev
      rw [h2] at this
      exact fun h => this (List.mem_cons_of_mem _ (m1 h))
    cases r2 with
    | ok a => exact m2
    | error e => exact m2

/-! #### The download tier does not touch the marker -/

theorem upload_blob_marker (w : World) (p : String) (s : St) :
    (upload_blob w p s).1.marker = s.marker := by
  simp only [upload_blob, emit]
  split <;> rfl

theorem download_attempt_marker (w : World) (u p : String) (s : St) :
    (download_attempt w u p s).1.marker = s.marker := by
  unfold download_attempt
  refine bindE_marker (check_deadline_pres w _ s).1 ?_
  intro a s1
  refine bindE_marker (get_with_jitter_pres w u s1).1 ?_
  intro b s2
  exact upload_blob_marker w p s2

theorem download_and_upload_marker (w : World) (u p : String) (s : St) :
    (download_and_upload w u p s).1.marker = s.marker := by
  unfold download_and_upload
  rcases h1 : download_attempt w u p s with ⟨s1, r1⟩
  have m1 : s1.marker = s.marker := by
    have := download_attempt_marker w u p s
    rw [h1] at this
    exact this
  cases r1 with
  | ok a => exact m1
  | error e =>
    dsimp only
    rcases h2 : download_attempt w u p (emit (Event.warn "PDF download attempt 1 failed") s1)
      with ⟨s2, r2⟩
    have m2 : s2.marker = s.marker := by
      have := download_attempt_marker w u p
        (emit (Event.warn "PDF download attempt 1 failed") s1)
      rw [h2] at this
      exact this.trans m1
    cases r2 with
    | ok a => exact m2
    | error e => exact m2

/-! #### A successful download leaves a confirmed upload in the trace -/

theorem upload_blob_ok_mem {w : World} {p : String} {s : St} {u : Unit}
    (h : (upload_blob w p s).2 = Except.ok u) :
    Event.uploadOk p ∈ (upload_blob w p s).1.trace := by
  unfold upload_blob at h ⊢
  dsimp only [emit] at h ⊢
  cases hput : w.putOk s.pIdx with
  | true => exact List.mem_cons_self _ _
  | false =>
    rw [hput, if_neg Bool.false_ne_true] at h
    cases h

/-- worker for the two attempts of the retry loop -/
theorem download_attempt_ok_mem {w : World} {u p : String} {s : St} {x : Unit}
    (h : (download_attempt w u p s).2 = Except.ok x) :
    Event.uploadOk p ∈ (download_attempt w u p s).1.trace := by
  unfold download_attempt at h ⊢
  rcases hc : check_deadline w "downloading PDF" s with ⟨s1, r1⟩
  try rw [hc] at h
  try rw [hc]
  cases r1 with
  | error e => cases h
  | ok a =>
    rw [bindE_ok] at h ⊢
    rcases hg : get_with_jitter w u s1 with ⟨s2, r2⟩
    try rw [hg] at h
    try rw [hg]
    cases r2 with
    | error e => cases h
    | ok b =>
      rw [bindE_ok] at h ⊢
      exact upload_blob_ok_mem h

theorem download_and_upload_ok_mem {w : World} {u p : String} {s : St} {x : Unit}
    (h : (download_and_upload w u p s).2 = Except.ok x) :
    Event.uploadOk p ∈ (download_and_upload w u p s).1.trace := by
  unfold download_and_upload at h ⊢
  rcases h1 : download_attempt w u p s with ⟨s1, r1⟩
  try rw [h1] at h
  try rw [h1]
  cases r1 with
  | ok a =>
    have hmem := @download_attempt_ok_mem w u p s a (by rw [h1])
    rw [h1] at hmem
    exact hmem
  | error e =>
    dsimp only at h ⊢
    rcases h2 : download_attempt w u p (emit (Event.warn "PDF download attempt 1 failed") s1)
      with ⟨s2, r2⟩
    try rw [h2] at h
    try rw [h2]
    cases r2 with
    | ok a =>
      have hmem := @download_attempt_ok_mem w u p
        (emit (Event.warn "PDF download attempt 1 failed") s1) a (by rw [h2])
      rw [h2] at hmem
      exact hmem
    | error e2 => cases h

/-! #### The marker-soundness predicate -/

theorem ms_of_noMW {tr : List Event} (h : ∀ v, Event.markerWrite v ∉ tr) :
    markerSound tr := by
  intro t1 v t2 heq
  exact absurd (heq ▸ List.mem_append.mpr (Or.inr (List.mem_cons_self _ _))) (h v)

theorem ms_cons_not {tr : List Event} {e : Event}
    (hne : ∀ v, e ≠ Event.markerWrite v) (h : markerSound tr) :
    markerSound (e :: tr) := by
  intro t1 v t2 heq
  cases t1 with
  | nil =>
    rw [List.nil_append] at heq
    injection heq with h1 h2
    exact absurd h1 (hne v)
  | cons x t1 =>
    rw [List.cons_append] at heq
    injection heq with h1 h2
    exact h t1 v t2 h2

theorem ms_cons_mw {tr : List Event} {v0 : String} (hc : confirmIn tr)
    (h : markerSound tr) : markerSound (Event.markerWrite v0 :: tr) := by
  intro t1 v t2 heq
  cases t1 with
  | nil =>
    rw [List.nil_append] at heq
    injection heq with h1 h2
    rw [← h2]
    exact hc
  | cons x t1 =>
    rw [List.cons_append] at heq
    injection heq with h1 h2
    exact h t1 v t2 h2

/-! ### Claim C10 -/

/-- When the marker does not match, the run always reaches the existence
check of the archive path, and the outcome cannot be `NoChange`. -/
theorem reconcile_with_no_match (w : World) (latest : Option String) (a : Artifact)
    (s : St) (hmm : markerMatches latest a.pdfUrl = false) :
    (reconcile_with w latest a s).2 ≠ Except.ok Outcome.noChange ∧
    Event.existsCheck (AZURE_BLOB_DIRECTORY ++ a.filename)
        (s.blobs.contains (AZURE_BLOB_DIRECTORY ++ a.filename))
      ∈ (reconcile_with w latest a s).1.trace := by
  unfold reconcile_with
  rw [hmm, if_neg Bool.false_ne_true]
  dsimp only
  unfold blob_exists_check
  dsimp only
  cases hc : s.blobs.contains (AZURE_BLOB_DIRECTORY ++ a.filename) with
  | true =>
    try dsimp only
    unfold write_latest_seen
    dsimp only [emit]
    cases hput : w.putOk s.pIdx with
    | true =>
      rw [if_pos rfl, bindE_ok]
      dsimp only [send_notification_email, emit]
      exact ⟨fun hx => Outcome.noConfusion (Except.ok.inj hx),
             List.mem_cons_of_mem _ (List.mem_cons_of_mem _ (List.mem_cons_self _ _))⟩
    | false =>
      rw [if_neg Bool.false_ne_true]
      dsimp only [bindE]
      exact ⟨fun hx => Except.noConfusion hx,
             List.mem_cons_of_mem _ (List.mem_cons_self _ _)⟩
  | false =>
    dsimp only
    rcases hd : download_and_upload w a.pdfUrl (AZURE_BLOB_DIRECTORY ++ a.filename)
        (emit (Event.existsCheck (AZURE_BLOB_DIRECTORY ++ a.filename) false) s)
      with ⟨sd, rd⟩
    try rw [hd]
    have hmem : Event.existsCheck (AZURE_BLOB_DIRECTORY ++ a.filename) false ∈ sd.trace := by
      have := @download_and_upload_mono w a.pdfUrl (AZURE_BLOB_DIRECTORY ++ a.filename)
        (emit (Event.existsCheck (AZURE_BLOB_DIRECTORY ++ a.filename) false) s)
        (Event.existsCheck (AZURE_BLOB_DIRECTORY ++ a.filename) false)
      rw [hd] at this
      exact this (List.mem_cons_self _ _)
    cases rd with
    | error e =>
      dsimp only [bindE]
      exact ⟨fun hx => Except.noConfusion hx, hmem⟩
    | ok uu =>
      rw [bindE_ok]
      try dsimp only
      unfold write_latest_seen
      dsimp only [emit]
      cases hput : w.putOk sd.pIdx with
      | true =>
        rw [if_pos rfl, bindE_ok]
        dsimp only [send_notification_email, emit]
        exact ⟨fun hx => Outcome.noConfusion (Except.ok.inj hx),
               List.mem_cons_of_mem _ (List.mem_cons_of_mem _ hmem)⟩
      | false =>
        rw [if_neg Bool.false_ne_true]
        dsimp only [bindE]
        exact ⟨fun hx => Except.noConfusion hx, List.mem_cons_of_mem _ hmem⟩

/-- C10: reading the persisted marker yields absent both on storage read
failure (missing or unreadable blob) and when the stored content is empty or
whitespace-only after stripping; consequently a run with such a marker can
never take the `NoChange` early return, and (once the harvest succeeds) it
proceeds to the existence check of the archive path. -/
theorem C10_blank_marker_is_absent (s : St) (c : String)
    (hm : s.marker = some c) (hc : pyStrip c = "") :
    (read_latest_seen s).2 = none ∧
    (read_latest_seen { s with marker := none }).2 = none ∧
    (∀ (w : World) (a : Artifact),
      (scrape_latest_detail_and_pdf w (emit Event.readMarker s)).2 = Except.ok a →
      (main w s).2 ≠ Except.ok Outcome.noChange ∧
      (∃ r, Event.existsCheck (AZURE_BLOB_DIRECTORY ++ a.filename) r
          ∈ (main w s).1.trace)) := by
  have hlv : latest_seen_value s = none := by
    unfold latest_seen_value
    rw [hm]
    dsimp only
    rw [if_pos hc]
  refine ⟨hlv, rfl, ?_⟩
  intro w a hh
  have hpair : scrape_latest_detail_and_pdf w (emit Event.readMarker s)
      = ((scrape_latest_detail_and_pdf w (emit Event.readMarker s)).1, Except.ok a) := by
    rw [← hh]
  have hmain := main_eq_reconcile_with w s _ a hpair
  have hmm : markerMatches (latest_seen_value s) a.pdfUrl = false := by
    rw [hlv]
    rfl
  have hno := reconcile_with_no_match w (latest_seen_value s) a
    (scrape_latest_detail_and_pdf w (emit Event.readMarker s)).1 hmm
  rw [hmain]
  exact ⟨hno.1, ⟨_, hno.2⟩⟩

theorem C10_blank_marker_is_absent_witness :
    (Sblank.marker = some "   " ∧ pyStrip "   " = "" ∧
     (scrape_latest_detail_and_pdf Wok (emit Event.readMarker Sblank)).2
       = Except.ok Aok) ∧
    ((main Wok Sblank).2 ≠ Except.ok Outcome.noChange ∧
     (∃ r, Event.existsCheck (AZURE_BLOB_DIRECTORY ++ Aok.filename) r
        ∈ (main Wok Sblank).1.trace)) :=
  ⟨⟨rfl, by decide, by decide⟩,
   (C10_blank_marker_is_absent Sblank "   " rfl (by decide)).2.2 Wok Aok (by decide)⟩

/-! ### Claim C4 -/

/-- C4: in every run started on an empty trace, each marker write is preceded
(earlier in the run, i.e. further down the most-recent-first trace) by a
stored-archive confirmation — a successful archive upload or a positive
existence check — and a run that fails never advances the marker. -/
theorem C4_marker_write_after_confirm (w : World) (s : St) (hs : s.trace = []) :
    markerSound (main w s).1.trace ∧
    (∀ e, (main w s).2 = Except.error e → (main w s).1.marker = s.marker) := by
  unfold main read_latest_seen
  dsimp only
  rcases hh : scrape_latest_detail_and_pdf w (emit Event.readMarker s) with ⟨s2, r⟩
  have hmw : ∀ v, Event.markerWrite v ∉ s2.trace := by
    intro v hv
    have hb := @scrape_latest_mw w (emit Event.readMarker s) v
    rw [hh] at hb
    have h2 := hb hv
    rcases List.mem_cons.mp h2 with h1 | h1
    · exact Event.noConfusion h1
    · rw [hs] at h1
      cases h1
  have hmarker : s2.marker = s.marker := by
    have := scrape_latest_pres w (emit Event.readMarker s)
    rw [hh] at this
    exact this.1
  cases r with
  | error e =>
    constructor
    · exact ms_of_noMW hmw
    · intro e2 _
      exact hmarker
  | ok a =>
    rw [bindE_ok]
    unfold reconcile_with
    cases hmm : markerMatches (latest_seen_value s) a.pdfUrl with
    | true =>
      rw [if_pos rfl]
      dsimp only [send_notification_email, emit]
      constructor
      · exact ms_cons_not (fun v hh2 => Event.noConfusion hh2) (ms_of_noMW hmw)
      · intro e2 hx
        exact Except.noConfusion hx
    | false =>
      rw [if_neg Bool.false_ne_true]
      dsimp only
      unfold blob_exists_check
      dsimp only
      cases hc : s2.blobs.contains (AZURE_BLOB_DIRECTORY ++ a.filename) with
      | true =>
        try dsimp only
        unfold write_latest_seen
        dsimp only [emit]
        cases hput : w.putOk s2.pIdx with
        | true =>
          rw [if_pos rfl, bindE_ok]
          dsimp only [send_notification_email, emit]
          constructor
          · refine ms_cons_not (fun v hh2 => Event.noConfusion hh2) ?_
            refine ms_cons_mw
              ⟨AZURE_BLOB_DIRECTORY ++ a.filename, Or.inr (List.mem_cons_self _ _)⟩ ?_
            exact ms_cons_not (fun v hh2 => Event.noConfusion hh2) (ms_of_noMW hmw)
          · intro e2 hx
            exact Except.noConfusion hx
        | false =>
          rw [if_neg Bool.false_ne_true]
          dsimp only [bindE]
          constructor
          · refine ms_cons_mw
              ⟨AZURE_BLOB_DIRECTORY ++ a.filename, Or.inr (List.mem_cons_self _ _)⟩ ?_
            exact ms_cons_not (fun v hh2 => Event.noConfusion hh2) (ms_of_noMW hmw)
          · intro e2 _
            exact hmarker
      | false =>
        try dsimp only
        rcases hd : download_and_upload w a.pdfUrl (AZURE_BLOB_DIRECTORY ++ a.filename)
            (emit (Event.existsCheck (AZURE_BLOB_DIRECTORY ++ a.filename) false) s2)
          with ⟨sd, rd⟩
        try rw [hd]
        have hmwd : ∀ v, Event.markerWrite v ∉ sd.trace := by
          intro v hv
          have hb := @download_and_upload_mw w a.pdfUrl (AZURE_BLOB_DIRECTORY ++ a.filename)
            (emit (Event.existsCheck (AZURE_BLOB_DIRECTORY ++ a.filename) false) s2) v
          rw [hd] at hb
          have h2 := hb hv
          rcases List.mem_cons.mp h2 with h1 | h1
          · exact Event.noConfusion h1
          · exact hmw v h1
        have hmarkerd : sd.marker = s.marker := by
          have := download_and_upload_marker w a.pdfUrl (AZURE_BLOB_DIRECTORY ++ a.filename)
            (emit (Event.existsCheck (AZURE_BLOB_DIRECTORY ++ a.filename) false) s2)
          rw [hd] at this
          exact this.trans hmarker
        cases rd with
        | error e =>
          dsimp only [bindE]
          constructor
          · exact ms_of_noMW hmwd
          · intro e2 _
            exact hmarkerd
        | ok uu =>
          have hup : Event.uploadOk (AZURE_BLOB_DIRECTORY ++ a.filename) ∈ sd.trace := by
            have := @download_and_upload_ok_mem w a.pdfUrl
              (AZURE_BLOB_DIRECTORY ++ a.filename)
              (emit (Event.existsCheck (AZURE_BLOB_DIRECTORY ++ a.filename) false) s2) uu
              (by rw [hd])
            rw [hd] at this
            exact this
          rw [bindE_ok]
          try dsimp only
          unfold write_latest_seen
          dsimp only [emit]
          cases hput : w.putOk sd.pIdx with
          | true =>
            rw [if_pos rfl, bindE_ok]
            dsimp only [send_notification_email, emit]
            constructor
            · refine ms_cons_not (fun v hh2 => Event.noConfusion hh2) ?_
              refine ms_cons_mw
                ⟨AZURE_BLOB_DIRECTORY ++ a.filename, Or.inl hup⟩ ?_
              exact ms_of_noMW hmwd
            · intro e2 hx
              exact Except.noConfusion hx
          | false =>
            rw [if_neg Bool.false_ne_true]
            dsimp only [bindE]
            constructor
            · refine ms_cons_mw
                ⟨AZURE_BLOB_DIRECTORY ++ a.filename, Or.inl hup⟩ ?_
              exact ms_of_noMW hmwd
            · intro e2 _
              exact hmarkerd

theorem C4_marker_write_after_confirm_witness :
    S0.trace = [] ∧ markerSound (main Wok S0).1.trace :=
  ⟨rfl, (C4_marker_write_after_confirm Wok S0 rfl).1⟩

/-! ### Claim C9 -/

/-- C9 counterexample: with a remaining deadline budget of 3 time units the
wait bound actually applied by `scrape_with_selenium` is 5 — not
`min(30, 3) = 3` as claimed — and it exceeds the remaining budget. -/
theorem C9_counterexample :
    selenium_wait_bound 3 ≠ min 30 3 ∧ 3 < selenium_wait_bound 3 := by decide

/-- C9 (amended): each DOM-marker wait uses the bound
`min(30, max(5, remaining_deadline))`, i.e. the remaining budget clamped to
the interval [5, 30].  The bound never exceeds 30; it equals
`min(30, remaining)` whenever at least 5 time units remain; when fewer than 5
remain the bound is 5, which can exceed the remaining budget.  The last
conjunct shows that every wait performed by the headless tier records exactly
this bound, applied to the clock reading taken at the wait. -/
theorem C9_wait_bound_clamped (t : Int) :
    selenium_wait_bound t = min 30 (max 5 t) ∧
    selenium_wait_bound t ≤ 30 ∧
    (5 ≤ t → selenium_wait_bound t = min 30 t) ∧
    (t < 5 → selenium_wait_bound t = 5) ∧
    (∀ (w : World) (u : String) (s : St),
      (seleniumWaitStep w u s).1.trace =
        Event.domWait (selenium_wait_bound (w.timeLeft s.tIdx)) (w.waitOk s.sIdx)
          :: Event.browserNav u :: s.trace) := by
  refine ⟨rfl, min_le_left _ _, ?_, ?_, ?_⟩
  · intro h
    rw [selenium_wait_bound, max_eq_right h]
  · intro h
    rw [selenium_wait_bound, max_eq_left h.le]
    decide
  · intro w u s
    simp only [seleniumWaitStep, emit]
    split <;> rfl

theorem C9_wait_bound_clamped_witness :
    (5 : Int) ≤ 10 ∧ selenium_wait_bound 10 = min 30 10 :=
  ⟨by decide, (C9_wait_bound_clamped 10).2.2.1 (by decide)⟩

/-! ### Claim C8 -/

/-- C8: the listing locator chooses the link whose visible text equals
`view report` after trimming and lowercasing if one exists, otherwise falls
back to the row's last link, and fails if and only if the row has no links at
all. -/
theorem C8_link_choice (row : Row) :
    (∀ a, row.links.find? (fun l => pyLower (pyStrip l.text) == "view report") = some a →
        extract_detail_url_from_row row = Except.ok (urljoin BASE a.href)) ∧
    (row.links.find? (fun l => pyLower (pyStrip l.text) == "view report") = none →
      ∀ a, row.links.getLast? = some a →
        extract_detail_url_from_row row = Except.ok (urljoin BASE a.href)) ∧
    ((∃ e, extract_detail_url_from_row row = Except.error e) ↔ row.links = []) := by
  refine ⟨?_, ?_, ?_⟩
  · intro a ha
    unfold extract_detail_url_from_row
    rw [ha]
  · intro hn a hl
    unfold extract_detail_url_from_row
    rw [hn, hl]
  · unfold extract_detail_url_from_row
    cases hf : row.links.find? (fun l => pyLower (pyStrip l.text) == "view report") with
    | some a =>
      simp only
      constructor
      · rintro ⟨e, he⟩
        cases he
      · intro hnil
        rw [hnil] at hf
        cases hf
    | none =>
      simp only
      cases hl : row.links.getLast? with
      | some a =>
        simp only
        constructor
        · rintro ⟨e, he⟩
          cases he
        · intro hnil
          rw [hnil] at hl
          cases hl
      | none =>
        simp only
        exact ⟨fun _ => List.getLast?_eq_none_iff.mp hl, fun _ => ⟨_, rfl⟩⟩

theorem C8_link_choice_witness :
    ([{ text := " View Report ", href := "/d" },
      { text := "other", href := "/o" }] : List Link).find?
        (fun l => pyLower (pyStrip l.text) == "view report")
      = some { text := " View Report ", href := "/d" } ∧
    extract_detail_url_from_row
        { cells := [], links := [{ text := " View Report ", href := "/d" },
                                 { text := "other", href := "/o" }] }
      = Except.ok (urljoin BASE "/d") :=
  ⟨by decide,
   (C8_link_choice { cells := [], links := [{ text := " View Report ", href := "/d" },
                                            { text := "other", href := "/o" }] }).1
     { text := " View Report ", href := "/d" } (by decide)⟩

end MMN
